import Mathlib

/-!
Verification of the Prompt-Driven-Data-visualizer NLP core.

Shallow embedding of the Python modules `src/nlp/session_manager.py`,
`src/nlp/query_classifier.py`, `src/nlp/sql_generator.py`,
`src/nlp/query_processor.py` and `src/nlp/context_aware_processor.py`.
Python lists become Lean `List`s, Python strings become Lean `String`s
(inspected through their character lists), fallible code returns
`Except String`, and the LLM calls are abstracted as oracle functions.
-/

set_option autoImplicit false

/-- Python `l[-n:]` for a non-negative `n`: for `n = 0` the slice is the
whole list (since `-0 = 0`), otherwise the last `min n (length l)`
elements. -/
def pySliceLast {α : Type} (n : Nat) (l : List α) : List α :=
  if n = 0 then l else l.drop (l.length - n)

/-- The last `min n (length l)` elements of `l`, kept in order. -/
def takeLast {α : Type} (n : Nat) (l : List α) : List α :=
  (l.reverse.take n).reverse

/-- Python's whitespace class for `str.strip`, restricted to the ASCII
whitespace characters. -/
def isPyWS (c : Char) : Bool :=
  c == ' ' || c == '\t' || c == '\n' || c == '\r' || c == '\x0b' || c == '\x0c'

/-- `str.lower`, character-wise. -/
def lowerChars (l : List Char) : List Char := l.map Char.toLower

/-- `str.upper`, character-wise. -/
def upperChars (l : List Char) : List Char := l.map Char.toUpper

/-- `str.strip()`: remove leading and trailing whitespace. -/
def trimChars (l : List Char) : List Char :=
  ((l.dropWhile isPyWS).reverse.dropWhile isPyWS).reverse

/-- `needle` is a prefix of `hay`. -/
def isPrefixList : List Char → List Char → Bool
  | [], _ => true
  | _ :: _, [] => false
  | a :: as, b :: bs => a == b && isPrefixList as bs

/-- Python's `needle in hay` substring test. -/
def containsList (needle : List Char) : List Char → Bool
  | [] => needle.isEmpty
  | c :: t => isPrefixList needle (c :: t) || containsList needle t

/-- One entry of the conversation history (`ConversationItem` in
`session_manager.py`); the wall-clock timestamp is irrelevant to every
claim and elided from the model. -/
structure ConversationItem where
  query : String
  response_type : String
  sql_query : Option String := none
  result_summary : Option String := none
  context_used : Option String := none
deriving DecidableEq, Repr

/-- The mutable state of a `SessionManager`: the configured bound
`max_history` and the conversation history list. -/
structure Session where
  max_history : Nat
  history : List ConversationItem
deriving DecidableEq, Repr

namespace SessionManager

/-- `SessionManager.add_interaction`: append the new item, then, when the
length exceeds `max_history`, keep `history[-max_history:]`. -/
def add_interaction (s : Session) (item : ConversationItem) : Session :=
  if (s.history ++ [item]).length > s.max_history then
    { s with history := pySliceLast s.max_history (s.history ++ [item]) }
  else
    { s with history := s.history ++ [item] }

/-- A fresh session with bound `m` followed by one `add_interaction` call
per element of `items`, in order. -/
def runAll (m : Nat) (items : List ConversationItem) : Session :=
  items.foldl add_interaction { max_history := m, history := [] }

/-- `SessionManager.get_conversation_history`: Python's `if limit:` treats
both `None` and `0` as "no limit". -/
def get_conversation_history (s : Session) (limit : Option Nat) :
    List ConversationItem :=
  match limit with
  | none => s.history
  | some n => if n = 0 then s.history else pySliceLast n s.history

end SessionManager

namespace SQLGenerator

/-- The denylist in `_validate_sql`. -/
def dangerous_keywords : List String :=
  ["DROP", "DELETE", "UPDATE", "INSERT", "ALTER", "CREATE", "TRUNCATE"]

/-- `SQLGenerator._validate_sql` (identical code appears in
`QueryProcessor._validate_sql`): empty strings fail; otherwise the
uppercased-then-stripped text must start with `SELECT`, contain no
denylisted keyword, and contain `SELECT` and `FROM`. -/
def _validate_sql (sql : String) : Bool :=
  if sql = "" then false
  else
    let u := trimChars (upperChars sql.data)
    isPrefixList "SELECT".data u &&
    !(dangerous_keywords.any fun k => containsList k.data u) &&
    (containsList "SELECT".data u && containsList "FROM".data u)

end SQLGenerator

namespace SessionManager

/-- The `follow_up_indicators` list in `detect_follow_up_patterns`. -/
def follow_up_indicators : List String :=
  ["that", "it", "this", "them", "those", "these",
   "previous", "last", "recent", "above", "earlier",
   "same", "similar", "also", "too", "as well"]

/-- The `pronoun_references` list in `detect_follow_up_patterns`. -/
def pronoun_references : List String :=
  ["that", "it", "this", "them", "those", "these"]

/-- The `time_references` list in `detect_follow_up_patterns`. -/
def time_references : List String :=
  ["previous", "last", "recent", "earlier", "before"]

/-- The `continuation_words` list in `detect_follow_up_patterns`. -/
def continuation_words : List String :=
  ["also", "too", "as well", "and", "plus", "additionally"]

/-- The union indicator set described by the spec: pronoun references,
temporal references (including `before`), continuation markers (including
`and`, `plus`, `additionally`), plus `above`, `same`, `similar`. -/
def claim_union_indicators : List String :=
  ["that", "it", "this", "them", "those", "these",
   "previous", "last", "recent", "earlier", "before",
   "also", "too", "as well", "and", "plus", "additionally",
   "above", "same", "similar"]

/-- The dictionary returned by `detect_follow_up_patterns`. -/
structure FollowUpInfo where
  is_follow_up : Bool
  has_pronouns : Bool
  has_time_refs : Bool
  has_continuation : Bool
  indicators_found : List String
deriving DecidableEq, Repr

/-- `SessionManager.detect_follow_up_patterns`: case-insensitive substring
matching of each indicator word against the lower-cased query. -/
def detect_follow_up_patterns (query : String) : FollowUpInfo :=
  let ql := lowerChars query.data
  { is_follow_up := follow_up_indicators.any fun w => containsList w.data ql
    has_pronouns := pronoun_references.any fun w => containsList w.data ql
    has_time_refs := time_references.any fun w => containsList w.data ql
    has_continuation := continuation_words.any fun w => containsList w.data ql
    indicators_found := follow_up_indicators.filter fun w => containsList w.data ql }

end SessionManager

namespace QueryClassifier

/-- The `schema_keywords` list in `classify_query`. -/
def schema_keywords : List String :=
  ["schema", "table", "tables", "columns", "structure", "describe", "show tables"]

/-- The `data_keywords` list in `classify_query`. -/
def data_keywords : List String :=
  ["select", "show", "find", "get", "count", "sum", "average", "max", "min",
   "top", "bottom", "chart", "graph", "plot", "visualize", "analyze"]

/-- `QueryClassifier.classify_query` (identical code appears in
`QueryProcessor._classify_query`). -/
def classify_query (query : String) : String :=
  let ql := lowerChars query.data
  if schema_keywords.any fun w => containsList w.data ql then
    if containsList "table".data ql &&
        (containsList "list".data ql || containsList "show".data ql) then
      "table_list"
    else
      "schema_request"
  else if data_keywords.any fun w => containsList w.data ql then
    "data_query"
  else
    "general"

end QueryClassifier

/-- `str.split()` with no argument: split on runs of whitespace, producing
no empty tokens; `acc` holds the current token reversed. -/
def splitWSAux : List Char → List Char → List (List Char)
  | acc, [] => if acc.isEmpty then [] else [acc.reverse]
  | acc, c :: t =>
      if isPyWS c then
        if acc.isEmpty then splitWSAux [] t else acc.reverse :: splitWSAux [] t
      else splitWSAux (c :: acc) t

/-- The token set `set(s.lower().split())` of `find_relevant_context`,
represented as a duplicate-free list. -/
def tokenSet (s : String) : List (List Char) :=
  (splitWSAux [] (lowerChars s.data)).dedup

/-- `len(a.intersection(b))` for token sets. -/
def setInterCard (a b : List (List Char)) : Nat :=
  (a.filter fun x => decide (x ∈ b)).length

/-- `len(a.union(b))` for token sets. -/
def setUnionCard (a b : List (List Char)) : Nat :=
  (a ++ b.filter fun x => decide (x ∉ a)).length

namespace SessionManager

/-- The loop body of `find_relevant_context`: the item qualifies when the
token-set union is non-empty and `|intersection| / |union| ≥ threshold`. -/
def query_similarity_qualifies (q : String) (t : ℚ) (iq : String) : Bool :=
  let cw := tokenSet q
  let iw := tokenSet iq
  let u := setUnionCard cw iw
  if u = 0 then false
  else decide (t ≤ mkRat (setInterCard cw iw) u)

/-- The spec's similarity value: `|intersection| / |union|`, defined as 0
when the union is empty. `mkRat a b` is the rational `a / b` (see
`mkRat_natCast_div`); it is used here because it evaluates inside
`decide`. -/
def jaccard_similarity (q iq : String) : ℚ :=
  let cw := tokenSet q
  let iw := tokenSet iq
  let u := setUnionCard cw iw
  if u = 0 then 0 else mkRat (setInterCard cw iw) u

/-- `SessionManager.find_relevant_context`: collect the qualifying items
in history order, then return `relevant_items[-3:]`. -/
def find_relevant_context (s : Session) (q : String) (t : ℚ) :
    List ConversationItem :=
  pySliceLast 3 (s.history.filter fun it => query_similarity_qualifies q t it.query)

end SessionManager

/-- Result of deserializing one stored history entry: either a decoded
item or a per-item failure (bad timestamp, wrong keys, ...). -/
inductive RawItem
  | good (item : ConversationItem)
  | bad
deriving DecidableEq, Repr

/-- The persisted session file as seen by `_load_session`: absent,
failing top-level JSON parsing, or parsed into a list of raw entries. -/
inductive SessionFile
  | missing
  | unparseable
  | parsed (items : List RawItem)
deriving DecidableEq, Repr

/-- `True` exactly for decodable entries. -/
def isGoodItem : RawItem → Bool
  | .good _ => true
  | .bad => false

/-- The decoded item, when there is one. -/
def itemOf : RawItem → Option ConversationItem
  | .good i => some i
  | .bad => none

/-- Items appended by the load loop before the first failing entry. -/
def decodedInit : List RawItem → List ConversationItem
  | [] => []
  | .good i :: t => i :: decodedInit t
  | .bad :: _ => []

namespace SessionManager

/-- `SessionManager._load_session` starting from the freshly-constructed
empty history: a missing file or a top-level parse failure leaves the
history empty; a parsed file is decoded entry by entry, appending as it
goes, and the first per-item failure aborts the loop inside the
surrounding `except`, keeping the entries already appended. The function
is total: no exception escapes. -/
def _load_session : SessionFile → List ConversationItem
  | .missing => []
  | .unparseable => []
  | .parsed items => decodedInit items

end SessionManager

/-- Python `hay.find(needle)`: index of the first occurrence, if any. -/
def findSub (needle : List Char) : List Char → Option Nat
  | [] => if needle.isEmpty then some 0 else none
  | c :: t =>
      if isPrefixList needle (c :: t) then some 0
      else
        match findSub needle t with
        | some i => some (i + 1)
        | none => none

/-- Python `"a\nb".split('\n')`, keeping empty lines. -/
def splitLinesAux : List Char → List Char → List (List Char)
  | acc, [] => [acc.reverse]
  | acc, c :: t =>
      if c == '\n' then acc.reverse :: splitLinesAux [] t
      else splitLinesAux (c :: acc) t

/-- `line.endswith(';')` for a single line. -/
def endsWithSemi (l : List Char) : Bool :=
  match l.getLast? with
  | some c => c == ';'
  | none => false

/-- `'\n'.join(lines)`. -/
def joinLines : List (List Char) → List Char
  | [] => []
  | [l] => l
  | l :: rest => l ++ '\n' :: joinLines rest

/-- The regex `(?:sql)?\s*(.*?)\s*` bracketed by triple-backtick fences
with `re.DOTALL | re.IGNORECASE` (the working variant in
`QueryProcessor._extract_sql`): the content between the first opening
fence (skipping an optional case-insensitive `sql` tag) and the next
closing fence, stripped. -/
def extractFencedBlock (text : List Char) : Option (List Char) :=
  match findSub "```".data text with
  | none => none
  | some i =>
      let rest := text.drop (i + 3)
      let rest2 := if isPrefixList "sql".data (lowerChars rest) then rest.drop 3 else rest
      match findSub "```".data rest2 with
      | none => none
      | some k => some (trimChars (rest2.take k))

/-- The loop appending stripped lines from the first `SELECT`-starting
line through the first line ending in `;`. -/
def takeThroughSemi : List (List Char) → List (List Char)
  | [] => []
  | line :: rest =>
      if endsWithSemi line then [line]
      else line :: takeThroughSemi rest

/-- Skip stripped lines until one starts with `SELECT` (case-insensitive),
then collect through the first line ending in `;`. -/
def sqlLineScan : List (List Char) → List (List Char)
  | [] => []
  | line :: rest =>
      if isPrefixList "SELECT".data (upperChars line) then
        takeThroughSemi (line :: rest)
      else sqlLineScan rest

/-- The `end_markers` cascade: cut at the first occurrence of `;` if `;`
occurs anywhere, else at the first blank line, else at the first fence
marker, else keep everything (the markers are tried in list order, not by
position). -/
def cutAtMarkers (l : List Char) : List Char :=
  match findSub ";".data l with
  | some i => l.take i
  | none =>
      match findSub "\n\n".data l with
      | some i => l.take i
      | none =>
          match findSub "```".data l with
          | some i => l.take i
          | none => l

/-- The shared tail of both `_extract_sql` variants: line scan from the
first `SELECT`-starting line, then the `SELECT`-anywhere fallback, then
the "no SQL found" error. -/
def extractByLinesOrSelect (text : List Char) : Except String String :=
  let scanned := sqlLineScan ((splitLinesAux [] text).map trimChars)
  if !scanned.isEmpty then .ok (String.mk (joinLines scanned))
  else
    match findSub "SELECT".data (upperChars text) with
    | some i => .ok (String.mk (trimChars (cutAtMarkers (trimChars (text.drop i)))))
    | none => .error "No SQL query found in the LLM response"

namespace QueryProcessor

/-- `QueryProcessor._extract_sql`: strip, try the fenced-block regex, then
the line scan, then the `SELECT`-anywhere fallback. -/
def _extract_sql (raw : String) : Except String String :=
  let text := trimChars raw.data
  match extractFencedBlock text with
  | some s => .ok (String.mk s)
  | none => extractByLinesOrSelect text

end QueryProcessor

namespace SQLGenerator

/-- `SQLGenerator._extract_sql`: its regex is the literal `r"``````"` —
six backticks with no capture group — so it matches only when the text
contains six consecutive backticks, and then `match.group(1)` raises
`IndexError`; otherwise the code falls through to the line scan and the
`SELECT`-anywhere fallback. -/
def _extract_sql (raw : String) : Except String String :=
  let text := trimChars raw.data
  if containsList "``````".data text then .error "IndexError: no such group"
  else extractByLinesOrSelect text

end SQLGenerator

/-- Python `s[:n] + "..." if len(s) > n else s`. -/
def pyTruncateDots (n : Nat) (s : String) : String :=
  if s.data.length > n then String.mk (s.data.take n) ++ "..." else s

/-- Python truthiness for an optional string field (`if item.field:`):
`None` and the empty string are falsy. -/
def optPart (s : Option String) (f : String → String) : List String :=
  match s with
  | some v => if v = "" then [] else [f v]
  | none => []

/-- The four LLM-backed chain invocations of the orchestrator, abstracted
as oracles; `Except.error` models a raised exception. -/
structure Oracles where
  resolveRun : String → String → Except String String
  generateRun : String → String → Except String String
  usageRun : String → String → String → Except String String
  generalRun : String → String → Except String String

namespace ContextManager

/-- `ContextManager.get_relevant_context`: formats the last interaction
(the `follow_up_info` argument is accepted and ignored, as in the code);
the trailing `Timestamp:` line is elided because the model has no clock.
-/
def get_relevant_context (s : Session) (follow_up_info : SessionManager.FollowUpInfo) :
    String :=
  match (SessionManager.get_conversation_history s (some 1)).getLast? with
  | none => ""
  | some last =>
      let _ := follow_up_info
      String.intercalate "\n"
        (["Last interaction:",
          "User asked: '" ++ last.query ++ "'",
          "Response type: " ++ last.response_type] ++
         optPart last.sql_query (fun sq =>
           "SQL executed: " ++ pyTruncateDots 200 (String.mk (trimChars sq.data))) ++
         optPart last.result_summary (fun rs => "Result: " ++ rs))

/-- `ContextManager.determine_context_usage`: total — its `except` returns
a fallback string. -/
def determine_context_usage (o : Oracles) (query context sql : String) : String :=
  if context = "" then "No previous context available"
  else
    match o.usageRun query context sql with
    | .ok r => String.mk (trimChars r.data)
    | .error _ => "Context analysis unavailable"

end ContextManager

namespace ReferenceResolver

/-- `ReferenceResolver.resolve_query_references`: total — empty context
returns the query unchanged, and its `except` falls back to the original
query. -/
def resolve_query_references (o : Oracles) (query context : String) : String :=
  if context = "" then query
  else
    match o.resolveRun query context with
    | .ok r => String.mk (trimChars r.data)
    | .error _ => query

end ReferenceResolver

namespace SQLGenerator

/-- `SQLGenerator.generate_sql`: run the LLM chain, extract, validate;
every failure is re-raised as `ValueError("Failed to generate SQL query:
...")`. -/
def generate_sql (o : Oracles) (query context : String) : Except String String :=
  match o.generateRun query context with
  | .error e => .error ("Failed to generate SQL query: " ++ e)
  | .ok llm_response =>
      match _extract_sql llm_response with
      | .error e => .error ("Failed to generate SQL query: " ++ e)
      | .ok sql =>
          if _validate_sql sql then .ok sql
          else .error
            "Failed to generate SQL query: Generated SQL query failed validation"

end SQLGenerator

/-- A response dictionary of the orchestrator, with every key that any
branch produces. -/
structure Response where
  type : String
  content : Option String := none
  sql_query : Option String := none
  explanation : Option String := none
  result_summary : Option String := none
  context_used : String := ""
deriving DecidableEq, Repr

namespace ContextAwareQueryProcessor

/-- `ContextAwareQueryProcessor._process_data_query`: fails exactly when
`generate_sql` fails. -/
def _process_data_query (o : Oracles) (query context : String) :
    Except String Response :=
  match SQLGenerator.generate_sql o query context with
  | .error e => .error ("Failed to process data query: " ++ e)
  | .ok sql =>
      .ok { type := "data_query",
            sql_query := some sql,
            explanation := some
              ("I'll execute this query to answer your question: '" ++ query ++ "'"),
            context_used := ContextManager.determine_context_usage o query context sql,
            result_summary := some "Query executed successfully" }

/-- `ContextAwareQueryProcessor._process_schema_query`: pure. -/
def _process_schema_query (query context : String) : Response :=
  let _ := query
  { type := "schema_query",
    content := some "Here's your database schema information.",
    context_used := pyTruncateDots 100 context }

/-- `ContextAwareQueryProcessor._process_table_list_query`: pure. -/
def _process_table_list_query (query context : String) : Response :=
  let _ := query
  { type := "schema_query",
    content := some "Here are all the tables in your database.",
    context_used := pyTruncateDots 100 context }

/-- `ContextAwareQueryProcessor._process_general_query`: total — its
`except` returns a fallback response. -/
def _process_general_query (o : Oracles) (query context : String) : Response :=
  match o.generalRun query context with
  | .ok content =>
      { type := "general_response",
        content := some content,
        context_used := pyTruncateDots 100 context }
  | .error _ =>
      { type := "general_response",
        content := some "I'm sorry, I couldn't process your request. Please try asking about your data or database schema.",
        context_used := "" }

/-- The dispatch on the classified query type inside `process_query`. -/
def route_query (o : Oracles) (resolved context : String) :
    Except String Response :=
  let qt := QueryClassifier.classify_query resolved
  if qt = "schema_request" then .ok (_process_schema_query resolved context)
  else if qt = "table_list" then .ok (_process_table_list_query resolved context)
  else if qt = "data_query" then _process_data_query o resolved context
  else if qt = "general" then .ok (_process_general_query o resolved context)
  else
    .ok { type := "general_response",
          content := some "I'm not sure how to help with that. Try asking about your data or database schema.",
          context_used := "" }

/-- `ContextAwareQueryProcessor.process_query`: gather context, resolve
references, classify, dispatch, and only then append the interaction; an
error anywhere before that propagates and leaves the session untouched. -/
def process_query (o : Oracles) (s : Session) (user_query : String) :
    Except String Response × Session :=
  let ctx := ContextManager.get_relevant_context s
    (SessionManager.detect_follow_up_patterns user_query)
  let resolved := ReferenceResolver.resolve_query_references o user_query ctx
  match route_query o resolved ctx with
  | .error e => (.error e, s)
  | .ok r =>
      (.ok r,
       SessionManager.add_interaction s
         { query := user_query,
           response_type := r.type,
           sql_query := r.sql_query,
           result_summary := r.result_summary,
           context_used := some r.context_used })

end ContextAwareQueryProcessor

/-- Oracles in which every chain invocation raises, standing in for an
unreachable LLM backend. -/
def offlineOracles : Oracles :=
  { resolveRun := fun _ _ => .error "offline"
    generateRun := fun _ _ => .error "offline"
    usageRun := fun _ _ _ => .error "offline"
    generalRun := fun _ _ => .error "offline" }

theorem containsList_of_isPrefixList (n h : List Char)
    (hp : isPrefixList n h = true) : containsList n h = true := by
  cases h with
  | nil =>
      cases n with
      | nil => rfl
      | cons a as => simp [isPrefixList] at hp
  | cons c t => simp [containsList, hp]

section TakeLastLemmas

variable {α : Type}

theorem takeLast_length (n : Nat) (l : List α) :
    (takeLast n l).length = min n l.length := by
  simp [takeLast]

theorem takeLast_of_length_le (n : Nat) (l : List α) (h : l.length ≤ n) :
    takeLast n l = l := by
  have : l.reverse.take n = l.reverse := by
    apply List.take_of_length_le
    simpa using h
  simp [takeLast, this]

theorem takeLast_eq_drop (n : Nat) (l : List α) :
    takeLast n l = l.drop (l.length - n) := by
  rw [takeLast, ← List.rtake_eq_reverse_take_reverse]
  rfl

theorem pySliceLast_eq_takeLast (n : Nat) (l : List α) (h : n ≠ 0) :
    pySliceLast n l = takeLast n l := by
  simp [pySliceLast, h, takeLast_eq_drop]

theorem take_append_take (m : Nat) (ys xs : List α) :
    (ys ++ xs.take m).take m = (ys ++ xs).take m := by
  rw [List.take_append_eq_append_take, List.take_append_eq_append_take,
    List.take_take]
  congr 1
  exact congrArg xs.take (Nat.min_eq_left (Nat.sub_le m ys.length))

theorem takeLast_append_takeLast (m : Nat) (l t : List α) :
    takeLast m (takeLast m l ++ t) = takeLast m (l ++ t) := by
  unfold takeLast
  rw [List.reverse_append, List.reverse_reverse, List.reverse_append]
  rw [take_append_take]

end TakeLastLemmas

namespace SessionManager

theorem add_interaction_history (s : Session) (i : ConversationItem)
    (hm : 1 ≤ s.max_history) :
    (add_interaction s i).history = takeLast s.max_history (s.history ++ [i]) := by
  unfold add_interaction
  by_cases h : (s.history ++ [i]).length > s.max_history
  · simp only [h, if_pos]
    exact pySliceLast_eq_takeLast _ _ (Nat.one_le_iff_ne_zero.mp hm)
  · simp only [h, if_neg, not_false_iff]
    exact (takeLast_of_length_le _ _ (Nat.le_of_not_lt h)).symm

theorem add_interaction_max (s : Session) (i : ConversationItem) :
    (add_interaction s i).max_history = s.max_history := by
  unfold add_interaction
  split <;> rfl

theorem foldl_add_interaction_history (m : Nat) (hm : 1 ≤ m) :
    ∀ (items : List ConversationItem) (s : Session),
      s.max_history = m → s.history.length ≤ m →
      (items.foldl add_interaction s).history = takeLast m (s.history ++ items)
  | [], s, hmax, hlen => by
      simpa using (takeLast_of_length_le m s.history hlen).symm
  | i :: t, s, hmax, hlen => by
      have hstep : (add_interaction s i).history = takeLast m (s.history ++ [i]) := by
        rw [add_interaction_history s i (hmax ▸ hm)]
        rw [hmax]
      have hmax' : (add_interaction s i).max_history = m := by
        rw [add_interaction_max, hmax]
      have hlen' : (add_interaction s i).history.length ≤ m := by
        rw [hstep, takeLast_length]
        exact Nat.min_le_left _ _
      have ih := foldl_add_interaction_history m hm t (add_interaction s i) hmax' hlen'
      calc ((i :: t).foldl add_interaction s).history
      _ = (t.foldl add_interaction (add_interaction s i)).history := rfl
      _ = takeLast m ((add_interaction s i).history ++ t) := ih
      _ = takeLast m (takeLast m (s.history ++ [i]) ++ t) := by rw [hstep]
      _ = takeLast m ((s.history ++ [i]) ++ t) := takeLast_append_takeLast m _ t
      _ = takeLast m (s.history ++ (i :: t)) := by
            rw [List.append_assoc]
            rfl

/-- C1 (amended): with a positive configured bound `m`, after any sequence
of `add_interaction` calls starting from a fresh session the history is
exactly the suffix of the appended items of length `min m (number of
items)` — the most recently appended items in insertion order — and in
particular its length never exceeds `m`. -/
theorem add_interaction_history_invariant (m : Nat) (hm : 1 ≤ m)
    (items : List ConversationItem) :
    (runAll m items).history = items.drop (items.length - m) ∧
    (runAll m items).history.length ≤ m := by
  have h := foldl_add_interaction_history m hm items
    { max_history := m, history := [] } rfl (by simp)
  have h' : (runAll m items).history = takeLast m items := by
    simpa [runAll] using h
  constructor
  · rw [h', ← pySliceLast_eq_takeLast m items (Nat.one_le_iff_ne_zero.mp hm)]
    simp [pySliceLast, Nat.one_le_iff_ne_zero.mp hm]
  · rw [h', takeLast_length]
    exact Nat.min_le_left _ _

/-- C1 witness: the amended theorem applied at bound 2 and three appends. -/
theorem add_interaction_history_invariant_witness :
    (runAll 2 [⟨"a", "general", none, none, none⟩,
               ⟨"b", "general", none, none, none⟩,
               ⟨"c", "general", none, none, none⟩]).history =
      [⟨"b", "general", none, none, none⟩,
       ⟨"c", "general", none, none, none⟩] ∧
    (runAll 2 [⟨"a", "general", none, none, none⟩,
               ⟨"b", "general", none, none, none⟩,
               ⟨"c", "general", none, none, none⟩]).history.length ≤ 2 := by
  have h := add_interaction_history_invariant 2 (by decide)
    [⟨"a", "general", none, none, none⟩,
     ⟨"b", "general", none, none, none⟩,
     ⟨"c", "general", none, none, none⟩]
  exact ⟨by rw [h.1]; rfl, h.2⟩

/-- C1 counterexample: with `max_history = 0` the Python slice
`history[-0:]` is the whole list, so one append leaves one retained item
and the claimed bound `len(history) ≤ max_history` fails. -/
theorem add_interaction_zero_max_violates :
    ¬ ((runAll 0 [⟨"q", "general", none, none, none⟩]).history.length ≤ 0) := by
  decide

/-- C10: an explicit limit of `0` is treated like no limit and returns the
full history, and a positive limit `n` returns the last `min n (length)`
items; the accessor is a pure function of the session state. -/
theorem get_conversation_history_spec (s : Session) :
    get_conversation_history s (some 0) = s.history ∧
    get_conversation_history s none = s.history ∧
    ∀ n : Nat, 0 < n →
      get_conversation_history s (some n) =
        s.history.drop (s.history.length - n) ∧
      (get_conversation_history s (some n)).length = min n s.history.length := by
  refine ⟨rfl, rfl, ?_⟩
  intro n hn
  have hne : n ≠ 0 := Nat.pos_iff_ne_zero.mp hn
  constructor
  · simp [get_conversation_history, hne, pySliceLast]
  · simp [get_conversation_history, hne, pySliceLast]
    omega

/-- C10 witness: the theorem applied at a concrete two-item session with
limits 0 and 1. -/
theorem get_conversation_history_spec_witness :
    get_conversation_history
      ⟨50, [⟨"a", "general", none, none, none⟩,
            ⟨"b", "general", none, none, none⟩]⟩ (some 0) =
      [⟨"a", "general", none, none, none⟩,
       ⟨"b", "general", none, none, none⟩] ∧
    get_conversation_history
      ⟨50, [⟨"a", "general", none, none, none⟩,
            ⟨"b", "general", none, none, none⟩]⟩ (some 1) =
      [⟨"b", "general", none, none, none⟩] := by
  have h := get_conversation_history_spec
    ⟨50, [⟨"a", "general", none, none, none⟩,
          ⟨"b", "general", none, none, none⟩]⟩
  exact ⟨h.1, by rw [(h.2.2 1 (by decide)).1]; rfl⟩

end SessionManager

namespace SQLGenerator

/-- C2: `_validate_sql` returns true iff the trimmed-and-uppercased text
starts with `SELECT`, contains `FROM`, and contains no denylisted keyword
as a substring; the claim's three concrete examples evaluate as stated. -/
theorem validate_sql_spec :
    (∀ s : String,
      _validate_sql s = true ↔
        (isPrefixList "SELECT".data (trimChars (upperChars s.data)) = true ∧
         containsList "FROM".data (trimChars (upperChars s.data)) = true ∧
         ∀ k ∈ dangerous_keywords,
           containsList k.data (trimChars (upperChars s.data)) = false)) ∧
    _validate_sql "SELECT * FROM orders LIMIT 100" = true ∧
    _validate_sql "DROP TABLE orders" = false ∧
    _validate_sql "UPDATE orders SET x=1" = false := by
  refine ⟨?_, by decide, by decide, by decide⟩
  intro s
  by_cases hs : s = ""
  · subst hs
    constructor
    · intro h
      exact absurd h (by decide)
    · intro ⟨h1, _, _⟩
      exact absurd h1 (by decide)
  · unfold _validate_sql
    simp only [hs, if_neg, not_false_iff, Bool.and_eq_true, Bool.not_eq_true',
      List.any_eq_false]
    constructor
    · rintro ⟨⟨hpre, hdang⟩, _, hfrom⟩
      refine ⟨hpre, hfrom, fun k hk => ?_⟩
      simpa using hdang k hk
    · rintro ⟨hpre, hfrom, hdang⟩
      refine ⟨⟨hpre, fun k hk => ?_⟩, containsList_of_isPrefixList _ _ hpre, hfrom⟩
      simpa using hdang k hk

end SQLGenerator

namespace SessionManager

/-- C3 counterexample: `before` belongs to the spec's union indicator set
and trivially matches the query `"before"`, yet `is_follow_up` is false,
because the code's `follow_up_indicators` list omits `before`, `and`,
`plus` and `additionally`. -/
theorem detect_follow_up_before_counterexample :
    "before" ∈ claim_union_indicators ∧
    containsList "before".data (lowerChars "before".data) = true ∧
    (detect_follow_up_patterns "before").is_follow_up = false := by
  decide

/-- C3 (amended): `is_follow_up` is true iff some word of the code's
16-element `follow_up_indicators` list — the spec's union set without
`before`, `and`, `plus`, `additionally` — occurs as a substring of the
lower-cased query; illustrated on two concrete queries. -/
theorem detect_follow_up_is_follow_up_iff :
    (∀ q : String,
      (detect_follow_up_patterns q).is_follow_up = true ↔
        ∃ w ∈ follow_up_indicators,
          containsList w.data (lowerChars q.data) = true) ∧
    (detect_follow_up_patterns "show that again").is_follow_up = true ∧
    (detect_follow_up_patterns "before").is_follow_up = false := by
  refine ⟨?_, by decide, by decide⟩
  intro q
  simp [detect_follow_up_patterns, List.any_eq_true]

end SessionManager

namespace QueryClassifier

/-- C8: the precedence characterization of `classify_query` — table_list
iff some schema keyword is present together with `table` and (`list` or
`show`); schema_request iff some schema keyword is present without that
secondary condition; data_query iff no schema keyword and some data
keyword; general otherwise — plus the claim's five concrete examples,
including the bare `"show me data"` falling to data_query. -/
theorem classify_query_spec :
    (∀ q : String,
      (classify_query q = "table_list" ↔
        ((schema_keywords.any fun w => containsList w.data (lowerChars q.data)) = true ∧
         containsList "table".data (lowerChars q.data) = true ∧
         (containsList "list".data (lowerChars q.data) = true ∨
          containsList "show".data (lowerChars q.data) = true))) ∧
      (classify_query q = "schema_request" ↔
        ((schema_keywords.any fun w => containsList w.data (lowerChars q.data)) = true ∧
         ¬(containsList "table".data (lowerChars q.data) = true ∧
           (containsList "list".data (lowerChars q.data) = true ∨
            containsList "show".data (lowerChars q.data) = true)))) ∧
      (classify_query q = "data_query" ↔
        (¬(schema_keywords.any fun w => containsList w.data (lowerChars q.data)) = true ∧
         (data_keywords.any fun w => containsList w.data (lowerChars q.data)) = true)) ∧
      (classify_query q = "general" ↔
        (¬(schema_keywords.any fun w => containsList w.data (lowerChars q.data)) = true ∧
         ¬(data_keywords.any fun w => containsList w.data (lowerChars q.data)) = true))) ∧
    classify_query "show me all tables" = "table_list" ∧
    classify_query "describe the orders table" = "schema_request" ∧
    classify_query "what are the top 5 customers by revenue" = "data_query" ∧
    classify_query "hello, how are you" = "general" ∧
    classify_query "show me data" = "data_query" := by
  refine ⟨?_, by decide, by decide, by decide, by decide, by decide⟩
  intro q
  simp only [classify_query]
  generalize (schema_keywords.any fun w => containsList w.data (lowerChars q.data)) = A
  generalize containsList "table".data (lowerChars q.data) = T
  generalize containsList "list".data (lowerChars q.data) = L
  generalize containsList "show".data (lowerChars q.data) = S
  generalize (data_keywords.any fun w => containsList w.data (lowerChars q.data)) = C
  cases A <;> cases T <;> cases L <;> cases S <;> cases C <;> decide

end QueryClassifier

theorem mkRat_natCast_div (a b : Nat) : mkRat (a : Int) b = (a : ℚ) / (b : ℚ) := by
  rw [Rat.mkRat_eq_divInt, Rat.divInt_eq_div]
  push_cast
  rfl

namespace SessionManager

/-- C7 counterexample: with threshold 0 and a whitespace-only stored query,
the spec's "similarity 0 when the union is empty" makes that item qualify,
so the three most recent qualifying items per the claim are the last three;
but the code skips empty-union items, and the returned list contains an
older item that is not among the claim's three most recent qualifying
ones. -/
theorem find_relevant_context_threshold_zero_counterexample :
    ¬ (∀ itm ∈ find_relevant_context
          ⟨50, [⟨"x", "g", none, none, none⟩, ⟨"", "g", none, none, none⟩,
                ⟨"y", "g", none, none, none⟩, ⟨"z", "g", none, none, none⟩]⟩
          "" 0,
        itm ∈ pySliceLast 3
          (([⟨"x", "g", none, none, none⟩, ⟨"", "g", none, none, none⟩,
             ⟨"y", "g", none, none, none⟩, ⟨"z", "g", none, none, none⟩] :
              List ConversationItem).filter
            fun it => decide ((0 : ℚ) ≤ jaccard_similarity "" it.query))) := by
  decide

/-- C7 (amended): the result is exactly the up-to-3 most recent items
whose token-set union with the query is non-empty and whose Jaccard
similarity is at least the threshold, in history order; every returned
item has claimed similarity ≥ threshold; empty history gives an empty
result; and the result never has more than 3 items. -/
theorem find_relevant_context_spec (s : Session) (q : String) (t : ℚ) :
    find_relevant_context s q t =
      ((s.history.reverse.filter
          fun it => query_similarity_qualifies q t it.query).take 3).reverse ∧
    (∀ itm ∈ find_relevant_context s q t,
      t ≤ (setInterCard (tokenSet q) (tokenSet itm.query) : ℚ) /
          (setUnionCard (tokenSet q) (tokenSet itm.query) : ℚ)) ∧
    (s.history = [] → find_relevant_context s q t = []) ∧
    (find_relevant_context s q t).length ≤ 3 := by
  have hslice : ∀ L : List ConversationItem, pySliceLast 3 L = L.drop (L.length - 3) := by
    intro L
    simp [pySliceLast]
  refine ⟨?_, ?_, ?_, ?_⟩
  · rw [find_relevant_context, pySliceLast_eq_takeLast 3 _ (by decide),
      List.filter_reverse]
    rfl
  · intro itm hm
    rw [find_relevant_context, hslice] at hm
    have hmem := List.mem_of_mem_drop hm
    have hp := (List.mem_filter.mp hmem).2
    by_cases hu : setUnionCard (tokenSet q) (tokenSet itm.query) = 0
    · simp [query_similarity_qualifies, hu] at hp
    · simp only [query_similarity_qualifies, hu, if_neg, not_false_iff,
        decide_eq_true_eq] at hp
      rw [← mkRat_natCast_div]
      exact hp
  · intro h
    simp [find_relevant_context, h, pySliceLast]
  · rw [find_relevant_context, hslice, List.length_drop]
    omega

/-- C7 witness: the amended theorem applied at an empty session. -/
theorem find_relevant_context_spec_witness :
    find_relevant_context ⟨50, []⟩ "show users" 0 = [] :=
  (find_relevant_context_spec ⟨50, []⟩ "show users" 0).2.2.1 rfl

/-- C9 counterexample: a stored file whose first entry decodes and whose
second entry is corrupt loads to a one-item history, not to an empty
session. -/
theorem load_session_corrupt_partial_counterexample :
    _load_session
        (.parsed [.good ⟨"q", "data_query", none, none, none⟩, .bad]) =
      [⟨"q", "data_query", none, none, none⟩] ∧
    _load_session
        (.parsed [.good ⟨"q", "data_query", none, none, none⟩, .bad]) ≠ [] := by
  decide

/-- C9 (amended): loading never raises (the model is a total function); a
missing file and a file whose top-level parse fails both yield an empty
history; a parsed file yields the decoded items before the first corrupt
entry, i.e. the longest decodable prefix. -/
theorem load_session_spec :
    _load_session .missing = [] ∧
    _load_session .unparseable = [] ∧
    ∀ items : List RawItem,
      _load_session (.parsed items) =
        (items.takeWhile isGoodItem).filterMap itemOf := by
  refine ⟨rfl, rfl, ?_⟩
  intro items
  induction items with
  | nil => rfl
  | cons r t ih =>
      cases r with
      | good i =>
          simpa [_load_session, decodedInit, List.takeWhile, isGoodItem,
            itemOf] using ih
      | bad => rfl

/-- C9 witness: the amended theorem applied at a concrete corrupt file. -/
theorem load_session_spec_witness :
    _load_session
        (.parsed [.good ⟨"a", "general", none, none, none⟩, .bad,
                  .good ⟨"b", "general", none, none, none⟩]) =
      [⟨"a", "general", none, none, none⟩] := by
  rw [load_session_spec.2.2]
  decide

end SessionManager

/-- C6: on the fenced input `"```sql\nSELECT 1\n```"` the spec's rule (a)
returns the fenced content `"SELECT 1"`, as `QueryProcessor._extract_sql`
does; `SQLGenerator._extract_sql` — whose own comment says it extracts
triple-backtick code blocks, but whose regex `r"``````"` has no capture
group and matches only six consecutive backticks — falls through to the
line scan and returns `"SELECT 1\n```"` instead, and raises `IndexError`
on any input containing six consecutive backticks. -/
theorem extract_sql_fenced_divergence :
    QueryProcessor._extract_sql "```sql\nSELECT 1\n```" = .ok "SELECT 1" ∧
    SQLGenerator._extract_sql "```sql\nSELECT 1\n```" = .ok "SELECT 1\n```" ∧
    ("SELECT 1\n```" : String) ≠ "SELECT 1" ∧
    SQLGenerator._extract_sql "``````" = .error "IndexError: no such group" := by
  refine ⟨rfl, rfl, by decide, rfl⟩

theorem mem_pySliceLast {α : Type} (n : Nat) (l : List α) (x : α)
    (h : x ∈ pySliceLast n l) : x ∈ l := by
  unfold pySliceLast at h
  split at h
  · exact h
  · exact List.mem_of_mem_drop h

theorem mem_add_interaction_history (s : Session) (it x : ConversationItem)
    (h : x ∈ (SessionManager.add_interaction s it).history) :
    x ∈ s.history ∨ x = it := by
  unfold SessionManager.add_interaction at h
  split at h
  · rcases List.mem_append.mp (mem_pySliceLast _ _ _ h) with h1 | h2
    · exact Or.inl h1
    · exact Or.inr (List.mem_singleton.mp h2)
  · rcases List.mem_append.mp h with h1 | h2
    · exact Or.inl h1
    · exact Or.inr (List.mem_singleton.mp h2)

namespace ContextAwareQueryProcessor

theorem route_query_type (o : Oracles) (resolved ctx : String) (r : Response)
    (h : route_query o resolved ctx = .ok r) :
    r.type = "schema_query" ∨ r.type = "data_query" ∨ r.type = "general_response" := by
  simp only [route_query] at h
  split_ifs at h
  · injection h with h'
    subst h'
    exact Or.inl rfl
  · injection h with h'
    subst h'
    exact Or.inl rfl
  · unfold _process_data_query at h
    revert h
    cases SQLGenerator.generate_sql o resolved ctx with
    | error e => intro h; exact Except.noConfusion h
    | ok sql =>
        intro h
        injection h with h'
        subst h'
        exact Or.inr (Or.inl rfl)
  · injection h with h'
    subst h'
    refine Or.inr (Or.inr ?_)
    unfold _process_general_query
    cases o.generalRun resolved ctx <;> rfl
  · injection h with h'
    subst h'
    exact Or.inr (Or.inr rfl)

/-- C4: `process_query` either fails and leaves the session exactly as it
was — no partial persistence — or succeeds and appends exactly one
interaction, built from the fully-constructed response, to the session. -/
theorem process_query_atomic_persistence (o : Oracles) (s : Session) (q : String) :
    (∀ e, (process_query o s q).1 = .error e → (process_query o s q).2 = s) ∧
    (∀ r, (process_query o s q).1 = .ok r →
      (process_query o s q).2 =
        SessionManager.add_interaction s
          { query := q,
            response_type := r.type,
            sql_query := r.sql_query,
            result_summary := r.result_summary,
            context_used := some r.context_used }) := by
  simp only [process_query]
  cases hR : route_query o
      (ReferenceResolver.resolve_query_references o q
        (ContextManager.get_relevant_context s
          (SessionManager.detect_follow_up_patterns q)))
      (ContextManager.get_relevant_context s
        (SessionManager.detect_follow_up_patterns q)) with
  | error e =>
      refine ⟨fun e' _ => rfl, fun r hr => ?_⟩
      exact Except.noConfusion hr
  | ok r0 =>
      refine ⟨fun e' he' => Except.noConfusion he', fun r hr => ?_⟩
      injection hr with h'
      subst h'
      rfl

/-- C4 witness: the theorem applied with all-failing oracles at a data
query, whose SQL generation step then raises; the session is unchanged. -/
theorem process_query_atomic_persistence_witness :
    (process_query offlineOracles ⟨50, []⟩ "count users").2 = ⟨50, []⟩ :=
  (process_query_atomic_persistence offlineOracles ⟨50, []⟩ "count users").1
    "Failed to process data query: Failed to generate SQL query: offline"
    rfl

/-- C5 counterexample: a table-list query appends an interaction whose
`response_type` is `schema_query`, which is not one of the four values
{schema_request, table_list, data_query, general} named by the claim. -/
theorem process_query_response_type_counterexample :
    ((process_query offlineOracles ⟨50, []⟩ "show tables").2.history.map
        fun itm => itm.response_type) = ["schema_query"] ∧
    "schema_query" ∉
      (["schema_request", "table_list", "data_query", "general"] : List String) := by
  refine ⟨by decide, by decide⟩

/-- C5 (amended): every interaction in the history after `process_query`
is either a pre-existing item or was appended with a `response_type` among
the values the code actually produces: {schema_query, data_query,
general_response}. -/
theorem process_query_response_type_closed (o : Oracles) (s : Session)
    (q : String) (itm : ConversationItem)
    (hm : itm ∈ (process_query o s q).2.history) :
    itm ∈ s.history ∨
      itm.response_type ∈
        (["schema_query", "data_query", "general_response"] : List String) := by
  revert hm
  simp only [process_query]
  cases hR : route_query o
      (ReferenceResolver.resolve_query_references o q
        (ContextManager.get_relevant_context s
          (SessionManager.detect_follow_up_patterns q)))
      (ContextManager.get_relevant_context s
        (SessionManager.detect_follow_up_patterns q)) with
  | error e => exact fun hm => Or.inl hm
  | ok r0 =>
      intro hm
      rcases mem_add_interaction_history _ _ _ hm with h1 | h2
      · exact Or.inl h1
      · right
        rw [h2]
        rcases route_query_type o _ _ r0 hR with h | h | h <;> simp [h]

/-- C5 witness: the amended theorem applied at the concrete table-list
run. -/
theorem process_query_response_type_closed_witness :
    (⟨"show tables", "schema_query", none, none, some ""⟩ : ConversationItem) ∈
        (⟨50, []⟩ : Session).history ∨
      ("schema_query" : String) ∈
        (["schema_query", "data_query", "general_response"] : List String) :=
  process_query_response_type_closed offlineOracles ⟨50, []⟩ "show tables"
    ⟨"show tables", "schema_query", none, none, some ""⟩ (by decide)

end ContextAwareQueryProcessor
